import Mathlib

/-!
Verification of the buyer negotiation policy in
`negotiation_agent_gem.py` (`YourBuyerAgent`).

The Python code works on Python ints, lists and floats.  The float
constants (0.68, 0.58, 0.85, 0.99, 0.02, and the concession rate
`0.2 + round * 0.1`) are modelled as the exact rationals they denote;
`int(x)` applied to such a product is modelled as exact truncation
toward zero (`pytrunc`), so `int(market_price * 0.58)` becomes
`pytrunc (market_price * 58) 100`, and
`int(seller_concession * (0.2 + round * 0.1))` becomes
`pytrunc (seller_concession * (2 + round)) 10`.
Message strings carry no decision logic and are reproduced up to
punctuation.
-/

set_option autoImplicit false
set_option linter.unusedVariables false
set_option linter.unnecessarySeqFocus false

/-- Python `int (n / d)` for an integer `n` and positive integer `d`:
the quotient truncated toward zero. -/
def pytrunc (n d : Int) : Int := if 0 ≤ n then n / d else -((-n) / d)

/-- `Product` dataclass: the product being negotiated. -/
structure Product where
  name : String
  category : String
  quantity : Int
  quality_grade : String
  origin : String
  base_market_price : Int
  attributes : List (String × String)

/-- `NegotiationContext` dataclass: the per-call negotiation state snapshot. -/
structure NegotiationContext where
  product : Product
  your_budget : Int
  current_round : Int
  seller_offers : List Int
  your_offers : List Int
  messages : List (String × String)

/-- `DealStatus` enum. -/
inductive DealStatus where
  | ONGOING
  | ACCEPTED
  | REJECTED
  | TIMEOUT
deriving DecidableEq

/-- `context.your_offers[-1] if context.your_offers else 0`:
the last own offer, or 0 when the history is empty. -/
def lastOwnOffer (context : NegotiationContext) : Int :=
  (context.your_offers.getLast?).getD 0

/-- `YourBuyerAgent.generate_opening_offer`. -/
def generate_opening_offer (context : NegotiationContext) : Int × String :=
  let market_price := context.product.base_market_price
  let quality := context.product.quality_grade
  let opening_percentage : Int :=
    if quality = "A" ∨ quality = "Export" then 68 else 58
  let opening_price := pytrunc (market_price * opening_percentage) 100
  let opening_price := min opening_price context.your_budget
  (opening_price,
    "Hello. Based on my analysis, I believe a fair starting point for these "
      ++ context.product.name ++ " would be Rs" ++ toString opening_price
      ++ ". Lets find a profitable solution.")

/-- `YourBuyerAgent.respond_to_seller_offer`. -/
def respond_to_seller_offer (context : NegotiationContext) (seller_price : Int)
    (seller_message : String) : DealStatus × Int × String :=
  let market_price := context.product.base_market_price
  let last_offer := lastOwnOffer context
  if context.current_round ≥ 8 then
    -- End-game strategy (rounds 8-10)
    if seller_price ≤ context.your_budget then
      (DealStatus.ACCEPTED, seller_price,
        "I have considered all factors, and I will take your offer of Rs"
          ++ toString seller_price ++ ". Lets close the deal.")
    else
      let final_offer := pytrunc (context.your_budget * 99) 100
      let final_offer := max final_offer (last_offer + 1)
      let final_offer :=
        if final_offer > seller_price then pytrunc (seller_price * 99) 100
        else final_offer
      (DealStatus.ONGOING, final_offer,
        "This is the final offer I can make: Rs" ++ toString final_offer
          ++ ". I cannot go any higher.")
  else
    -- General negotiation strategy (rounds 1-7)
    if seller_price ≤ pytrunc (market_price * 85) 100 ∧
        seller_price ≤ context.your_budget then
      (DealStatus.ACCEPTED, seller_price,
        "That is a very fair price. I have run the numbers, and I can accept Rs"
          ++ toString seller_price ++ ".")
    else
      let last_seller_offer :=
        if context.seller_offers.length > 1 then
          (context.seller_offers.reverse.get? 1).getD seller_price
        else seller_price
      let seller_concession := last_seller_offer - seller_price
      let increase_amount :=
        if seller_concession > 0 then
          pytrunc (seller_concession * (2 + context.current_round)) 10
        else pytrunc (market_price * 2) 100
      let counter_offer := last_offer + increase_amount
      let counter_offer := min counter_offer (seller_price - 1)
      let counter_offer := min counter_offer context.your_budget
      let counter_offer := max counter_offer (last_offer + 1)
      (DealStatus.ONGOING, counter_offer,
        "I appreciate your offer, but my data suggests a different value. I can move up to Rs"
          ++ toString counter_offer ++ ".")

/-- An arbitrary concrete product used by witnesses and counterexamples. -/
def mkProduct (grade : String) (market : Int) : Product :=
  { name := "Alphonso Mangoes", category := "Mangoes", quantity := 100,
    quality_grade := grade, origin := "Ratnagiri",
    base_market_price := market, attributes := [] }

/-- An arbitrary concrete context used by witnesses and counterexamples. -/
def mkCtx (grade : String) (market budget round : Int)
    (sellers yours : List Int) : NegotiationContext :=
  { product := mkProduct grade market, your_budget := budget,
    current_round := round, seller_offers := sellers,
    your_offers := yours, messages := [] }

/-- C4: in rounds ≥ 8, an affordable seller price is accepted at exactly
that price. -/
theorem c4_endgame_accept (ctx : NegotiationContext) (sp : Int) (sm : String)
    (h8 : ctx.current_round ≥ 8) (hb : sp ≤ ctx.your_budget) :
    (respond_to_seller_offer ctx sp sm).1 = DealStatus.ACCEPTED ∧
    (respond_to_seller_offer ctx sp sm).2.1 = sp := by
  simp only [respond_to_seller_offer]
  rw [if_pos h8, if_pos hb]
  exact ⟨rfl, rfl⟩

theorem c4_endgame_accept_witness :
    (mkCtx "A" 1000 500 9 [600] [400]).current_round ≥ 8 ∧
    (450 : Int) ≤ (mkCtx "A" 1000 500 9 [600] [400]).your_budget ∧
    ((respond_to_seller_offer (mkCtx "A" 1000 500 9 [600] [400]) 450 "m").1 =
        DealStatus.ACCEPTED ∧
      (respond_to_seller_offer (mkCtx "A" 1000 500 9 [600] [400]) 450 "m").2.1 =
        450) :=
  ⟨by decide, by decide,
    c4_endgame_accept (mkCtx "A" 1000 500 9 [600] [400]) 450 "m"
      (by decide) (by decide)⟩

/-- C5: in rounds < 8, a seller price at or below `floor(0.85 * marketPrice)`
that is also affordable is accepted at exactly that price. -/
theorem c5_early_accept (ctx : NegotiationContext) (sp : Int) (sm : String)
    (h8 : ctx.current_round < 8)
    (hm : sp ≤ 85 * ctx.product.base_market_price / 100)
    (hb : sp ≤ ctx.your_budget) :
    (respond_to_seller_offer ctx sp sm).1 = DealStatus.ACCEPTED ∧
    (respond_to_seller_offer ctx sp sm).2.1 = sp := by
  have hc : sp ≤ pytrunc (ctx.product.base_market_price * 85) 100 := by
    unfold pytrunc
    split_ifs <;> omega
  simp only [respond_to_seller_offer]
  rw [if_neg (by omega : ¬ ctx.current_round ≥ 8), if_pos ⟨hc, hb⟩]
  exact ⟨rfl, rfl⟩

theorem c5_early_accept_witness :
    (mkCtx "B" 1000 900 3 [] [600]).current_round < 8 ∧
    (840 : Int) ≤ 85 * (mkCtx "B" 1000 900 3 [] [600]).product.base_market_price / 100 ∧
    (840 : Int) ≤ (mkCtx "B" 1000 900 3 [] [600]).your_budget ∧
    ((respond_to_seller_offer (mkCtx "B" 1000 900 3 [] [600]) 840 "m").1 =
        DealStatus.ACCEPTED ∧
      (respond_to_seller_offer (mkCtx "B" 1000 900 3 [] [600]) 840 "m").2.1 =
        840) :=
  ⟨by decide, by decide, by decide,
    c5_early_accept (mkCtx "B" 1000 900 3 [] [600]) 840 "m"
      (by decide) (by decide) (by decide)⟩

/-- C8: in rounds < 8, when the early-accept branch is not taken, the
result is Ongoing at a counter-offer that is at least `lastOwnOffer + 1`
unconditionally; the monotonic floor is applied last, so it overrides the
below-seller-price and budget clamps whenever `lastOwnOffer + 1` exceeds
`min (sellerPrice - 1) budget`. -/
theorem c8_monotonic_floor (ctx : NegotiationContext) (sp : Int) (sm : String)
    (h8 : ctx.current_round < 8)
    (hna : ¬(sp ≤ pytrunc (ctx.product.base_market_price * 85) 100 ∧
        sp ≤ ctx.your_budget)) :
    (respond_to_seller_offer ctx sp sm).1 = DealStatus.ONGOING ∧
    lastOwnOffer ctx + 1 ≤ (respond_to_seller_offer ctx sp sm).2.1 ∧
    (min (sp - 1) ctx.your_budget < lastOwnOffer ctx + 1 →
      (respond_to_seller_offer ctx sp sm).2.1 = lastOwnOffer ctx + 1) := by
  simp only [respond_to_seller_offer]
  rw [if_neg (by omega : ¬ ctx.current_round ≥ 8), if_neg hna]
  refine ⟨rfl, ?_, ?_⟩ <;> simp only [] <;> omega

theorem c8_monotonic_floor_witness :
    (mkCtx "B" 5 100 3 [] [10]).current_round < 8 ∧
    ¬((5 : Int) ≤ pytrunc ((mkCtx "B" 5 100 3 [] [10]).product.base_market_price * 85) 100 ∧
        (5 : Int) ≤ (mkCtx "B" 5 100 3 [] [10]).your_budget) ∧
    ((respond_to_seller_offer (mkCtx "B" 5 100 3 [] [10]) 5 "m").1 =
        DealStatus.ONGOING ∧
      lastOwnOffer (mkCtx "B" 5 100 3 [] [10]) + 1 ≤
        (respond_to_seller_offer (mkCtx "B" 5 100 3 [] [10]) 5 "m").2.1 ∧
      (min ((5 : Int) - 1) (mkCtx "B" 5 100 3 [] [10]).your_budget <
          lastOwnOffer (mkCtx "B" 5 100 3 [] [10]) + 1 →
        (respond_to_seller_offer (mkCtx "B" 5 100 3 [] [10]) 5 "m").2.1 =
          lastOwnOffer (mkCtx "B" 5 100 3 [] [10]) + 1)) :=
  ⟨by decide, by decide,
    c8_monotonic_floor (mkCtx "B" 5 100 3 [] [10]) 5 "m"
      (by decide) (by decide)⟩

/-- C9: both operations are deterministic: identical inputs yield
identical outputs. -/
theorem c9_deterministic (c1 c2 : NegotiationContext) (sp1 sp2 : Int)
    (sm1 sm2 : String) (hc : c1 = c2) (hsp : sp1 = sp2) (hsm : sm1 = sm2) :
    generate_opening_offer c1 = generate_opening_offer c2 ∧
    respond_to_seller_offer c1 sp1 sm1 = respond_to_seller_offer c2 sp2 sm2 := by
  subst hc
  subst hsp
  subst hsm
  exact ⟨rfl, rfl⟩

theorem c9_deterministic_witness :
    mkCtx "A" 1000 900 2 [950] [680] = mkCtx "A" 1000 900 2 [950] [680] ∧
    (920 : Int) = 920 ∧ "m" = "m" ∧
    (generate_opening_offer (mkCtx "A" 1000 900 2 [950] [680]) =
        generate_opening_offer (mkCtx "A" 1000 900 2 [950] [680]) ∧
      respond_to_seller_offer (mkCtx "A" 1000 900 2 [950] [680]) 920 "m" =
        respond_to_seller_offer (mkCtx "A" 1000 900 2 [950] [680]) 920 "m") :=
  ⟨rfl, rfl, rfl,
    c9_deterministic (mkCtx "A" 1000 900 2 [950] [680])
      (mkCtx "A" 1000 900 2 [950] [680]) 920 920 "m" "m" rfl rfl rfl⟩

/-- Truncating division of a nonnegative scaled budget stays below the
budget: `pytrunc (b * 99) 100 ≤ b` for `0 ≤ b`. -/
theorem pytrunc_99_le (b : Int) (hb : 0 ≤ b) : pytrunc (b * 99) 100 ≤ b := by
  unfold pytrunc
  split_ifs <;> omega

/-- Truncating division of a nonnegative value is nonnegative. -/
theorem pytrunc_nonneg (n : Int) (hn : 0 ≤ n) : 0 ≤ pytrunc n 100 := by
  unfold pytrunc
  split_ifs <;> omega

/-- C2 (amended): in rounds < 8 outside the early-accept branch, provided
the last own offer is below the budget and at least two below the seller
price, the result is Ongoing at a counter-offer `c` with
`lastOwnOffer < c < sellerPrice` and `c ≤ budget`. -/
theorem c2_counter_bounds (ctx : NegotiationContext) (sp : Int) (sm : String)
    (h8 : ctx.current_round < 8)
    (hna : ¬(sp ≤ pytrunc (ctx.product.base_market_price * 85) 100 ∧
        sp ≤ ctx.your_budget))
    (hlb : lastOwnOffer ctx < ctx.your_budget)
    (hls : lastOwnOffer ctx + 1 < sp) :
    (respond_to_seller_offer ctx sp sm).1 = DealStatus.ONGOING ∧
    lastOwnOffer ctx < (respond_to_seller_offer ctx sp sm).2.1 ∧
    (respond_to_seller_offer ctx sp sm).2.1 < sp ∧
    (respond_to_seller_offer ctx sp sm).2.1 ≤ ctx.your_budget := by
  simp only [respond_to_seller_offer]
  rw [if_neg (by omega : ¬ ctx.current_round ≥ 8), if_neg hna]
  refine ⟨rfl, ?_, ?_, ?_⟩ <;> dsimp only <;> omega

theorem c2_counter_bounds_witness :
    (mkCtx "B" 1000 900 3 [800, 760] [600]).current_round < 8 ∧
    ¬((880 : Int) ≤
        pytrunc ((mkCtx "B" 1000 900 3 [800, 760] [600]).product.base_market_price * 85) 100 ∧
      (880 : Int) ≤ (mkCtx "B" 1000 900 3 [800, 760] [600]).your_budget) ∧
    lastOwnOffer (mkCtx "B" 1000 900 3 [800, 760] [600]) <
      (mkCtx "B" 1000 900 3 [800, 760] [600]).your_budget ∧
    lastOwnOffer (mkCtx "B" 1000 900 3 [800, 760] [600]) + 1 < 880 ∧
    ((respond_to_seller_offer (mkCtx "B" 1000 900 3 [800, 760] [600]) 880 "m").1 =
        DealStatus.ONGOING ∧
      lastOwnOffer (mkCtx "B" 1000 900 3 [800, 760] [600]) <
        (respond_to_seller_offer (mkCtx "B" 1000 900 3 [800, 760] [600]) 880 "m").2.1 ∧
      (respond_to_seller_offer (mkCtx "B" 1000 900 3 [800, 760] [600]) 880 "m").2.1 < 880 ∧
      (respond_to_seller_offer (mkCtx "B" 1000 900 3 [800, 760] [600]) 880 "m").2.1 ≤
        (mkCtx "B" 1000 900 3 [800, 760] [600]).your_budget) :=
  ⟨by decide, by decide, by decide, by decide,
    c2_counter_bounds (mkCtx "B" 1000 900 3 [800, 760] [600]) 880 "m"
      (by decide) (by decide) (by decide) (by decide)⟩

/-- C2 fails as stated: with seller price 5, market price 5, budget 100 and
last own offer 20, the early-accept branch is not taken, yet the returned
Ongoing counter-offer 21 is not below the seller price. -/
theorem c2_counterexample :
    (mkCtx "B" 5 100 3 [] [20]).current_round < 8 ∧
    (0 : Int) < 5 ∧
    ¬((5 : Int) ≤ pytrunc ((mkCtx "B" 5 100 3 [] [20]).product.base_market_price * 85) 100 ∧
      (5 : Int) ≤ (mkCtx "B" 5 100 3 [] [20]).your_budget) ∧
    (respond_to_seller_offer (mkCtx "B" 5 100 3 [] [20]) 5 "m").1 =
      DealStatus.ONGOING ∧
    (respond_to_seller_offer (mkCtx "B" 5 100 3 [] [20]) 5 "m").2.1 = 21 ∧
    ¬((respond_to_seller_offer (mkCtx "B" 5 100 3 [] [20]) 5 "m").2.1 < 5) := by
  decide

/-- C3 (amended): in rounds ≥ 8 with an unaffordable seller price, a
nonnegative budget and a last own offer at least two below the seller
price, the result is Ongoing at exactly
`max (floor (budget * 0.99)) (lastOwnOffer + 1)`, which is strictly above
the last own offer and strictly below the seller price (the
`sellerPrice * 0.99` cap never fires under these hypotheses). -/
theorem c3_endgame_counter (ctx : NegotiationContext) (sp : Int) (sm : String)
    (h8 : ctx.current_round ≥ 8) (hb : 0 ≤ ctx.your_budget)
    (hsb : ctx.your_budget < sp) (hls : lastOwnOffer ctx + 1 < sp) :
    (respond_to_seller_offer ctx sp sm).1 = DealStatus.ONGOING ∧
    (respond_to_seller_offer ctx sp sm).2.1 =
      max (pytrunc (ctx.your_budget * 99) 100) (lastOwnOffer ctx + 1) ∧
    lastOwnOffer ctx < (respond_to_seller_offer ctx sp sm).2.1 ∧
    (respond_to_seller_offer ctx sp sm).2.1 < sp := by
  have h1 := pytrunc_99_le ctx.your_budget hb
  simp only [respond_to_seller_offer]
  rw [if_pos h8, if_neg (by omega : ¬ sp ≤ ctx.your_budget),
    if_neg (by omega :
      ¬ max (pytrunc (ctx.your_budget * 99) 100) (lastOwnOffer ctx + 1) > sp)]
  refine ⟨rfl, rfl, ?_, ?_⟩ <;> dsimp only <;> omega

theorem c3_endgame_counter_witness :
    (mkCtx "B" 1000 500 9 [800] [450]).current_round ≥ 8 ∧
    (0 : Int) ≤ (mkCtx "B" 1000 500 9 [800] [450]).your_budget ∧
    (mkCtx "B" 1000 500 9 [800] [450]).your_budget < 800 ∧
    lastOwnOffer (mkCtx "B" 1000 500 9 [800] [450]) + 1 < 800 ∧
    ((respond_to_seller_offer (mkCtx "B" 1000 500 9 [800] [450]) 800 "m").1 =
        DealStatus.ONGOING ∧
      (respond_to_seller_offer (mkCtx "B" 1000 500 9 [800] [450]) 800 "m").2.1 =
        max (pytrunc ((mkCtx "B" 1000 500 9 [800] [450]).your_budget * 99) 100)
          (lastOwnOffer (mkCtx "B" 1000 500 9 [800] [450]) + 1) ∧
      lastOwnOffer (mkCtx "B" 1000 500 9 [800] [450]) <
        (respond_to_seller_offer (mkCtx "B" 1000 500 9 [800] [450]) 800 "m").2.1 ∧
      (respond_to_seller_offer (mkCtx "B" 1000 500 9 [800] [450]) 800 "m").2.1 <
        800) :=
  ⟨by decide, by decide, by decide, by decide,
    c3_endgame_counter (mkCtx "B" 1000 500 9 [800] [450]) 800 "m"
      (by decide) (by decide) (by decide) (by decide)⟩

/-- C3 fails as stated: in round 8 with budget 100, seller price 200 and
last own offer 199, the code returns Ongoing at 200, which is not strictly
below the seller price (and not strictly above computing from the cap). -/
theorem c3_counterexample :
    (mkCtx "B" 1000 100 8 [] [199]).current_round ≥ 8 ∧
    (mkCtx "B" 1000 100 8 [] [199]).your_budget < 200 ∧
    (respond_to_seller_offer (mkCtx "B" 1000 100 8 [] [199]) 200 "m").1 =
      DealStatus.ONGOING ∧
    (respond_to_seller_offer (mkCtx "B" 1000 100 8 [] [199]) 200 "m").2.1 = 200 ∧
    ¬((respond_to_seller_offer (mkCtx "B" 1000 100 8 [] [199]) 200 "m").2.1 <
      200) := by
  decide

/-- C6 (amended): with a positive budget, a base market price of at least
2 and empty histories, the opening offer is exactly
`min (floor (fraction * marketPrice)) budget` with fraction 0.68 for
quality A/Export and 0.58 otherwise, and it is positive, at most the
budget, and at most `fraction * marketPrice`. -/
theorem c6_opening_offer (ctx : NegotiationContext)
    (hb : 0 < ctx.your_budget) (hm : 2 ≤ ctx.product.base_market_price)
    (hy : ctx.your_offers = []) (hs : ctx.seller_offers = []) :
    (generate_opening_offer ctx).1 =
      min (pytrunc (ctx.product.base_market_price *
        (if ctx.product.quality_grade = "A" ∨ ctx.product.quality_grade = "Export"
          then 68 else 58)) 100) ctx.your_budget ∧
    0 < (generate_opening_offer ctx).1 ∧
    (generate_opening_offer ctx).1 ≤ ctx.your_budget ∧
    100 * (generate_opening_offer ctx).1 ≤
      (if ctx.product.quality_grade = "A" ∨ ctx.product.quality_grade = "Export"
        then 68 else 58) * ctx.product.base_market_price := by
  have e : (generate_opening_offer ctx).1 =
      min (pytrunc (ctx.product.base_market_price *
        (if ctx.product.quality_grade = "A" ∨ ctx.product.quality_grade = "Export"
          then 68 else 58)) 100) ctx.your_budget := rfl
  refine ⟨e, ?_, ?_, ?_⟩ <;> rw [e] <;> unfold pytrunc <;> split_ifs <;> omega

theorem c6_opening_offer_witness :
    (0 : Int) < (mkCtx "A" 1000 900 1 [] []).your_budget ∧
    (2 : Int) ≤ (mkCtx "A" 1000 900 1 [] []).product.base_market_price ∧
    (mkCtx "A" 1000 900 1 [] []).your_offers = [] ∧
    (mkCtx "A" 1000 900 1 [] []).seller_offers = [] ∧
    ((generate_opening_offer (mkCtx "A" 1000 900 1 [] [])).1 =
      min (pytrunc ((mkCtx "A" 1000 900 1 [] []).product.base_market_price *
        (if (mkCtx "A" 1000 900 1 [] []).product.quality_grade = "A" ∨
            (mkCtx "A" 1000 900 1 [] []).product.quality_grade = "Export"
          then 68 else 58)) 100) (mkCtx "A" 1000 900 1 [] []).your_budget ∧
      0 < (generate_opening_offer (mkCtx "A" 1000 900 1 [] [])).1 ∧
      (generate_opening_offer (mkCtx "A" 1000 900 1 [] [])).1 ≤
        (mkCtx "A" 1000 900 1 [] []).your_budget ∧
      100 * (generate_opening_offer (mkCtx "A" 1000 900 1 [] [])).1 ≤
        (if (mkCtx "A" 1000 900 1 [] []).product.quality_grade = "A" ∨
            (mkCtx "A" 1000 900 1 [] []).product.quality_grade = "Export"
          then 68 else 58) * (mkCtx "A" 1000 900 1 [] []).product.base_market_price) :=
  ⟨by decide, by decide, by decide, by decide,
    c6_opening_offer (mkCtx "A" 1000 900 1 [] [])
      (by decide) (by decide) (by decide) (by decide)⟩

/-- C6 fails as stated: with base market price 1 and budget 1 (both
positive) and quality B, the opening offer is 0, which is not positive. -/
theorem c6_counterexample :
    (0 : Int) < (mkCtx "B" 1 1 1 [] []).your_budget ∧
    (0 : Int) < (mkCtx "B" 1 1 1 [] []).product.base_market_price ∧
    (mkCtx "B" 1 1 1 [] []).your_offers = [] ∧
    (mkCtx "B" 1 1 1 [] []).seller_offers = [] ∧
    (generate_opening_offer (mkCtx "B" 1 1 1 [] [])).1 = 0 ∧
    ¬(0 < (generate_opening_offer (mkCtx "B" 1 1 1 [] [])).1) := by
  decide

/-- C7 (amended): in rounds < 8 outside the early-accept branch, the code
computes the seller concession from the SECOND-TO-LAST recorded seller
offer (under the stated precondition, the offer before the immediately
preceding one), not from the last recorded one: with
`seller_offers = l ++ [a, b]`, the counter-offer is the clamp of
`lastOwnOffer + increase` where the increase is derived from the
concession `a - sellerPrice`. -/
theorem c7_concession_second_last (ctx : NegotiationContext) (sp : Int)
    (sm : String) (l : List Int) (a b : Int)
    (h8 : ctx.current_round < 8)
    (hna : ¬(sp ≤ pytrunc (ctx.product.base_market_price * 85) 100 ∧
        sp ≤ ctx.your_budget))
    (hso : ctx.seller_offers = l ++ [a, b]) :
    (respond_to_seller_offer ctx sp sm).1 = DealStatus.ONGOING ∧
    (respond_to_seller_offer ctx sp sm).2.1 =
      max (min (min (lastOwnOffer ctx +
          (if a - sp > 0 then pytrunc ((a - sp) * (2 + ctx.current_round)) 10
            else pytrunc (ctx.product.base_market_price * 2) 100))
        (sp - 1)) ctx.your_budget) (lastOwnOffer ctx + 1) := by
  have hlen : ctx.seller_offers.length > 1 := by
    rw [hso]
    simp
  have hget : ctx.seller_offers.reverse.get? 1 = some a := by
    rw [hso]
    simp
  simp only [respond_to_seller_offer]
  rw [if_neg (by omega : ¬ ctx.current_round ≥ 8), if_neg hna, if_pos hlen,
    hget]
  exact ⟨rfl, rfl⟩

theorem c7_concession_second_last_witness :
    (mkCtx "B" 1000 900 3 [900, 880] [600]).current_round < 8 ∧
    ¬((860 : Int) ≤
        pytrunc ((mkCtx "B" 1000 900 3 [900, 880] [600]).product.base_market_price * 85) 100 ∧
      (860 : Int) ≤ (mkCtx "B" 1000 900 3 [900, 880] [600]).your_budget) ∧
    (mkCtx "B" 1000 900 3 [900, 880] [600]).seller_offers = [] ++ [900, 880] ∧
    ((respond_to_seller_offer (mkCtx "B" 1000 900 3 [900, 880] [600]) 860 "m").1 =
        DealStatus.ONGOING ∧
      (respond_to_seller_offer (mkCtx "B" 1000 900 3 [900, 880] [600]) 860 "m").2.1 =
        max (min (min (lastOwnOffer (mkCtx "B" 1000 900 3 [900, 880] [600]) +
            (if (900 : Int) - 860 > 0 then
              pytrunc (((900 : Int) - 860) *
                (2 + (mkCtx "B" 1000 900 3 [900, 880] [600]).current_round)) 10
              else
              pytrunc ((mkCtx "B" 1000 900 3 [900, 880] [600]).product.base_market_price * 2) 100))
          ((860 : Int) - 1)) (mkCtx "B" 1000 900 3 [900, 880] [600]).your_budget)
          (lastOwnOffer (mkCtx "B" 1000 900 3 [900, 880] [600]) + 1)) :=
  ⟨by decide, by decide, by decide,
    c7_concession_second_last (mkCtx "B" 1000 900 3 [900, 880] [600]) 860 "m"
      [] 900 880 (by decide) (by decide) (by decide)⟩

/-- C7 fails as stated: in the claimed concrete scenario (round 3, market
price 1000, budget 900, last own offer 600, current seller offer 750 with
immediately preceding recorded seller offer 800), the code takes the
early-accept branch (750 ≤ floor(0.85 * 1000) = 850 ≤ 900) and returns
Accepted at 750, not Ongoing at 625. -/
theorem c7_counterexample :
    (mkCtx "A" 1000 900 3 [850, 800] [600]).current_round = 3 ∧
    (mkCtx "A" 1000 900 3 [850, 800] [600]).product.base_market_price = 1000 ∧
    (mkCtx "A" 1000 900 3 [850, 800] [600]).your_budget = 900 ∧
    lastOwnOffer (mkCtx "A" 1000 900 3 [850, 800] [600]) = 600 ∧
    (mkCtx "A" 1000 900 3 [850, 800] [600]).seller_offers.getLast? = some 800 ∧
    (respond_to_seller_offer (mkCtx "A" 1000 900 3 [850, 800] [600]) 750 "m").1 =
      DealStatus.ACCEPTED ∧
    (respond_to_seller_offer (mkCtx "A" 1000 900 3 [850, 800] [600]) 750 "m").2.1 =
      750 ∧
    ¬((respond_to_seller_offer (mkCtx "A" 1000 900 3 [850, 800] [600]) 750 "m").1 =
        DealStatus.ONGOING ∧
      (respond_to_seller_offer (mkCtx "A" 1000 900 3 [850, 800] [600]) 750 "m").2.1 =
        625) := by
  decide

/-- C1 (amended): with a positive budget, emitted prices are safe under
the extra hypotheses the code actually needs: the opening offer is
positive and at most the budget once the base market price is at least 2,
and a response price is positive and at most the budget once the seller
price is positive and the last own offer lies in `[0, budget)`; an
accepted price always equals the seller price and is at most the budget. -/
theorem c1_price_invariant :
    (∀ ctx : NegotiationContext, 0 < ctx.your_budget →
      2 ≤ ctx.product.base_market_price →
      0 < (generate_opening_offer ctx).1 ∧
      (generate_opening_offer ctx).1 ≤ ctx.your_budget) ∧
    (∀ (ctx : NegotiationContext) (sp : Int) (sm : String),
      0 < ctx.your_budget → 0 < sp → 0 ≤ lastOwnOffer ctx →
      lastOwnOffer ctx < ctx.your_budget →
      0 < (respond_to_seller_offer ctx sp sm).2.1 ∧
      (respond_to_seller_offer ctx sp sm).2.1 ≤ ctx.your_budget ∧
      ((respond_to_seller_offer ctx sp sm).1 = DealStatus.ACCEPTED →
        (respond_to_seller_offer ctx sp sm).2.1 = sp ∧
        sp ≤ ctx.your_budget)) := by
  constructor
  · intro ctx hb hm
    have e : (generate_opening_offer ctx).1 =
        min (pytrunc (ctx.product.base_market_price *
          (if ctx.product.quality_grade = "A" ∨ ctx.product.quality_grade = "Export"
            then 68 else 58)) 100) ctx.your_budget := rfl
    rw [e]
    unfold pytrunc
    split_ifs <;> omega
  · intro ctx sp sm hb hsp h0 hlt
    by_cases h8 : ctx.current_round ≥ 8
    · by_cases hacc : sp ≤ ctx.your_budget
      · simp only [respond_to_seller_offer]
        rw [if_pos h8, if_pos hacc]
        exact ⟨hsp, hacc, fun _ => ⟨rfl, hacc⟩⟩
      · have h1 := pytrunc_99_le ctx.your_budget (le_of_lt hb)
        have h2 : 0 ≤ pytrunc (ctx.your_budget * 99) 100 :=
          pytrunc_nonneg _ (by omega)
        simp only [respond_to_seller_offer]
        rw [if_pos h8, if_neg hacc,
          if_neg (show ¬ max (pytrunc (ctx.your_budget * 99) 100)
            (lastOwnOffer ctx + 1) > sp by omega)]
        refine ⟨?_, ?_, fun hC => nomatch hC⟩ <;> dsimp only <;> omega
    · by_cases hacc : sp ≤ pytrunc (ctx.product.base_market_price * 85) 100 ∧
          sp ≤ ctx.your_budget
      · simp only [respond_to_seller_offer]
        rw [if_neg h8, if_pos hacc]
        exact ⟨hsp, hacc.2, fun _ => ⟨rfl, hacc.2⟩⟩
      · simp only [respond_to_seller_offer]
        rw [if_neg h8, if_neg hacc]
        refine ⟨?_, ?_, fun hC => nomatch hC⟩ <;> dsimp only <;> omega

theorem c1_price_invariant_witness :
    ((0 : Int) < (mkCtx "Export" 1200 700 1 [] []).your_budget ∧
      (2 : Int) ≤ (mkCtx "Export" 1200 700 1 [] []).product.base_market_price ∧
      (0 < (generate_opening_offer (mkCtx "Export" 1200 700 1 [] [])).1 ∧
        (generate_opening_offer (mkCtx "Export" 1200 700 1 [] [])).1 ≤
          (mkCtx "Export" 1200 700 1 [] []).your_budget)) ∧
    ((0 : Int) < (mkCtx "A" 1000 900 4 [950] [680]).your_budget ∧
      (0 : Int) < 920 ∧
      (0 : Int) ≤ lastOwnOffer (mkCtx "A" 1000 900 4 [950] [680]) ∧
      lastOwnOffer (mkCtx "A" 1000 900 4 [950] [680]) <
        (mkCtx "A" 1000 900 4 [950] [680]).your_budget ∧
      (0 < (respond_to_seller_offer (mkCtx "A" 1000 900 4 [950] [680]) 920 "m").2.1 ∧
        (respond_to_seller_offer (mkCtx "A" 1000 900 4 [950] [680]) 920 "m").2.1 ≤
          (mkCtx "A" 1000 900 4 [950] [680]).your_budget ∧
        ((respond_to_seller_offer (mkCtx "A" 1000 900 4 [950] [680]) 920 "m").1 =
            DealStatus.ACCEPTED →
          (respond_to_seller_offer (mkCtx "A" 1000 900 4 [950] [680]) 920 "m").2.1 =
            920 ∧ (920 : Int) ≤ (mkCtx "A" 1000 900 4 [950] [680]).your_budget))) :=
  ⟨⟨by decide, by decide,
      c1_price_invariant.1 (mkCtx "Export" 1200 700 1 [] [])
        (by decide) (by decide)⟩,
    ⟨by decide, by decide, by decide, by decide,
      c1_price_invariant.2 (mkCtx "A" 1000 900 4 [950] [680]) 920 "m"
        (by decide) (by decide) (by decide) (by decide)⟩⟩

/-- C1 fails as stated: with base market price 1 and budget 5 (both
positive), the opening offer is `min (int (1 * 0.58)) 5 = 0`, which is not
positive. -/
theorem c1_counterexample :
    (0 : Int) < (mkCtx "B" 1 5 1 [] []).your_budget ∧
    (0 : Int) < (mkCtx "B" 1 5 1 [] []).product.base_market_price ∧
    (generate_opening_offer (mkCtx "B" 1 5 1 [] [])).1 = 0 ∧
    ¬(0 < (generate_opening_offer (mkCtx "B" 1 5 1 [] [])).1) := by
  decide

/-- C10: the code performs no input validation at all: with a negative
budget the opening offer is the negative budget itself, and in the
end-game a nonpositive seller price is silently Accepted; no error signal
of any kind is produced (the functions are total and always return an
offer tuple). -/
theorem c10_no_input_validation :
    (generate_opening_offer (mkCtx "A" 1000 (-5) 1 [] [])).1 = -5 ∧
    ¬(0 < (generate_opening_offer (mkCtx "A" 1000 (-5) 1 [] [])).1) ∧
    (respond_to_seller_offer (mkCtx "A" 1000 10 9 [] []) (-3) "m").1 =
      DealStatus.ACCEPTED ∧
    (respond_to_seller_offer (mkCtx "A" 1000 10 9 [] []) (-3) "m").2.1 = -3 ∧
    (generate_opening_offer (mkCtx "B" 0 0 1 [] [])).1 = 0 := by
  decide
